import Mathlib

/-!
# Verification of the datapipe TCP relay (src/datapipe.c, src/revdatapipe.c)

Shallow embedding of the two C variants.  Both programs perform the same
sequence of operations: validate `argc`, then for each of the two endpoints
parse the port (`htons((unsigned short) atol(arg))`, rejected when zero),
resolve the address (`inet_addr`, falling back to `gethostbyname`), create a
socket and `connect`; on a failed `connect` the socket is closed but setup
continues.  The main loop `select`s on both sockets, services at most one
ready socket per iteration (`if / else if`), copying up to 4096 bytes from
one socket to the other, and on a read or write result `<= 0` closes both
sockets without leaving the loop.

The operating system is modelled as an oracle (`SetupEnv`, `IterEnv`) that
supplies the result of every system call.  The only OS behaviour fixed by
the model rather than left to the oracle is POSIX `select` failing with
`EBADF` (a negative return) when the descriptor set contains a closed
descriptor, which is what happens on every iteration after the loop has
closed the sockets.  `perror` / `fprintf(stderr, ...)` calls are modelled by
appending a tag naming the failing operation to a diagnostic log.
-/

/-- Size of the single transfer buffer, `char buf[4096]`. -/
def BUFSZ : Nat := 4096

/-- The `INADDR_NONE` sentinel returned by `inet_addr` on failure. -/
def INADDR_NONE : Nat := 4294967295

/-- Oracle for the system calls made during setup.  `portArg i` is the value
`atol` returns for the i-th port argument; `inetAddr i` the `inet_addr`
result for the i-th host argument; `hostent i` the `gethostbyname` result
(consulted only when `inetAddr i = INADDR_NONE`); `socketRet i` and
`connectRet i` the corresponding call results; `forkRet` the `fork` result
(used only by datapipe.c). -/
structure SetupEnv where
  argc : Nat
  portArg : Fin 2 → Int
  inetAddr : Fin 2 → Nat
  hostent : Fin 2 → Option Nat
  socketRet : Fin 2 → Int
  connectRet : Fin 2 → Int
  forkRet : Int

/-- Outcome of the per-endpoint setup body (one iteration of the C `for`
loop): either the process returns with an exit code, or the endpoint is set
up with `isOpen` recording whether its socket is still open (`connect`
succeeded) or was closed after a failed `connect`. -/
inductive LegOut where
  | exit (code : Int) (log : List String)
  | ok (isOpen : Bool) (log : List String)
deriving DecidableEq, Repr

/-- Outcome of the whole setup phase: either the process exits before the
main loop, or it enters the loop with the two sockets' open flags. -/
inductive SetupResult where
  | exit (code : Int) (log : List String)
  | toLoop (open0 open1 : Bool) (log : List String)
deriving DecidableEq, Repr

/-- State carried across iterations of the main loop: whether `sockfd[0]`
and `sockfd[1]` are open, and the contents of `buf` (4096 bytes). -/
structure LoopState where
  open0 : Bool
  open1 : Bool
  buf : List Nat
deriving DecidableEq, Repr

/-- Oracle for one iteration of the main loop: the `select` result (used
only when both descriptors are still valid), the two `FD_ISSET` flags, the
`recv` result together with the bytes the kernel deposited in `buf`, and
the `send` result. -/
structure IterEnv where
  selectRet : Int
  ready0 : Bool
  ready1 : Bool
  recvRet : Int
  recvData : List Nat
  sendRet : Int

/-- Well-formedness of the iteration oracle, fixed by the `recv` contract:
when `recv` reports `n > 0` bytes it deposited exactly `n` bytes in the
buffer, and never more than the requested `sizeof(buf) = 4096`. -/
def IterEnv.wf (e : IterEnv) : Prop :=
  0 < e.recvRet → e.recvData.length = e.recvRet.toNat ∧ e.recvRet ≤ 4096

instance (e : IterEnv) : Decidable e.wf := by
  unfold IterEnv.wf; infer_instance

/-- Observable outcome of one loop iteration: `ret` is the process exit
code when the iteration returns; `st` the loop state afterwards; `recvSrc`
the socket index `recv` was called on, if any; `sent` the target socket
index and the exact byte list handed to `send`, if `send` was called;
`closeneeded` the value of the C flag at the end of the iteration. -/
structure StepOut where
  ret : Option Int
  st : LoopState
  recvSrc : Option (Fin 2)
  sent : Option (Fin 2 × List Nat)
  closeneeded : Bool
deriving DecidableEq, Repr

/-- Socket-and-connect tail of the per-endpoint setup body of revdatapipe.c
(lines 77-88): `socket` failure is fatal with exit code -1; `connect`
failure is reported and closes the socket but does not exit. -/
def Revdatapipe.legSock (env : SetupEnv) (i : Fin 2) (log : List String) : LegOut :=
  if env.socketRet i < 0 then .exit (-1) (log ++ ["socket"])
  else if env.connectRet i ≠ 0 then .ok false (log ++ ["connect"])
  else .ok true log

/-- Per-endpoint setup body of revdatapipe.c (lines 55-89).  The port check
models `dest[i].sin_port = htons((unsigned short) atol(...)); if (!dest[i].sin_port)`:
conversion of a C `long` to `unsigned short` reduces the value modulo 2^16,
and `htons` (a byte swap of a 16-bit value) is zero iff its argument is
zero, so the test fires exactly when `atol` of the argument is divisible by
65536. -/
def Revdatapipe.leg (env : SetupEnv) (i : Fin 2) (log : List String) : LegOut :=
  if env.portArg i % 65536 = 0 then .exit (-1) (log ++ ["invalid target port"])
  else if env.inetAddr i = INADDR_NONE then
    match env.hostent i with
    | none => .exit (-1) (log ++ ["gethostbyname"])
    | some _ => Revdatapipe.legSock env i log
  else Revdatapipe.legSock env i log

/-- Setup phase of revdatapipe.c `main` (lines 48-89): argc check (usage
message, exit -1), then the endpoint loop for i = 0 and i = 1. -/
def Revdatapipe.setup (env : SetupEnv) : SetupResult :=
  if env.argc ≠ 5 then .exit (-1) ["usage"]
  else
    match Revdatapipe.leg env 0 [] with
    | .exit c log => .exit c log
    | .ok o0 log =>
      match Revdatapipe.leg env 1 log with
      | .exit c log => .exit c log
      | .ok o1 log => .toLoop o0 o1 log

/-- One iteration of the main polling loop of revdatapipe.c (lines 95-122).
The effective `select` result is the oracle's answer when both descriptors
are valid and a forced `EBADF` failure (negative) otherwise; a negative
result returns -1 from `main`.  Otherwise `sockfd[0]` is checked first: if
ready, `recv(sockfd[0], buf, sizeof(buf), 0)`; a result `<= 0` sets
`closeneeded`, else the first `nbyt` bytes of `buf` are handed to
`send(sockfd[1], buf, nbyt, 0)` whose result `<= 0` sets `closeneeded`.
Only when `sockfd[0]` was not ready is `sockfd[1]` serviced, symmetrically.
If `closeneeded` is set, both sockets are closed; the loop never breaks. -/
def Revdatapipe.loopStep (st : LoopState) (e : IterEnv) : StepOut :=
  let sel : Int := if st.open0 && st.open1 then e.selectRet else -1
  if sel < 0 then
    { ret := some (-1), st := st, recvSrc := none, sent := none, closeneeded := false }
  else if e.ready0 then
    if e.recvRet ≤ 0 then
      { ret := none, st := { st with open0 := false, open1 := false },
        recvSrc := some 0, sent := none, closeneeded := true }
    else
      let buf1 := e.recvData ++ st.buf.drop e.recvData.length
      let data := buf1.take e.recvRet.toNat
      if e.sendRet ≤ 0 then
        { ret := none, st := { open0 := false, open1 := false, buf := buf1 },
          recvSrc := some 0, sent := some (1, data), closeneeded := true }
      else
        { ret := none, st := { st with buf := buf1 },
          recvSrc := some 0, sent := some (1, data), closeneeded := false }
  else if e.ready1 then
    if e.recvRet ≤ 0 then
      { ret := none, st := { st with open0 := false, open1 := false },
        recvSrc := some 1, sent := none, closeneeded := true }
    else
      let buf1 := e.recvData ++ st.buf.drop e.recvData.length
      let data := buf1.take e.recvRet.toNat
      if e.sendRet ≤ 0 then
        { ret := none, st := { open0 := false, open1 := false, buf := buf1 },
          recvSrc := some 1, sent := some (0, data), closeneeded := true }
      else
        { ret := none, st := { st with buf := buf1 },
          recvSrc := some 1, sent := some (0, data), closeneeded := false }
  else
    { ret := none, st := st, recvSrc := none, sent := none, closeneeded := false }

/-- Run of the revdatapipe.c loop on a finite prefix of the oracle stream,
collecting the outcome of each iteration; a returning iteration is the last
element. -/
def Revdatapipe.run (st : LoopState) : List IterEnv → List StepOut
  | [] => []
  | e :: es =>
    let o := Revdatapipe.loopStep st e
    if o.ret.isSome then [o] else o :: Revdatapipe.run o.st es

/-- Socket-and-connect tail of the per-endpoint setup body of datapipe.c
(lines 125-136): `socket` failure exits with -1; `connect` failure is
reported and closes the socket but does not exit. -/
def Datapipe.legSock (env : SetupEnv) (i : Fin 2) (log : List String) : LegOut :=
  if env.socketRet i < 0 then .exit (-1) (log ++ ["socket"])
  else if env.connectRet i ≠ 0 then .ok false (log ++ ["connect"])
  else .ok true log

/-- Per-endpoint setup body of datapipe.c (lines 103-137); same structure
as revdatapipe.c but the port and resolution failures exit with 25. -/
def Datapipe.leg (env : SetupEnv) (i : Fin 2) (log : List String) : LegOut :=
  if env.portArg i % 65536 = 0 then .exit 25 (log ++ ["invalid target port"])
  else if env.inetAddr i = INADDR_NONE then
    match env.hostent i with
    | none => .exit 25 (log ++ ["gethostbyname"])
    | some _ => Datapipe.legSock env i log
  else Datapipe.legSock env i log

/-- Setup phase of datapipe.c `main` (lines 96-148): argc check (exit 30),
the endpoint loop, then `fork`: failure exits 20, a positive result is the
parent which exits 0, and the child (result 0) proceeds into the loop. -/
def Datapipe.setup (env : SetupEnv) : SetupResult :=
  if env.argc ≠ 5 then .exit 30 ["usage"]
  else
    match Datapipe.leg env 0 [] with
    | .exit c log => .exit c log
    | .ok o0 log =>
      match Datapipe.leg env 1 log with
      | .exit c log => .exit c log
      | .ok o1 log =>
        if env.forkRet = -1 then .exit 20 (log ++ ["fork"])
        else if 0 < env.forkRet then .exit 0 log
        else .toLoop o0 o1 log

/-- One iteration of the main polling loop of datapipe.c (lines 153-180);
identical to the revdatapipe.c loop except that a `select` failure returns
30 from `main`. -/
def Datapipe.loopStep (st : LoopState) (e : IterEnv) : StepOut :=
  let sel : Int := if st.open0 && st.open1 then e.selectRet else -1
  if sel < 0 then
    { ret := some 30, st := st, recvSrc := none, sent := none, closeneeded := false }
  else if e.ready0 then
    if e.recvRet ≤ 0 then
      { ret := none, st := { st with open0 := false, open1 := false },
        recvSrc := some 0, sent := none, closeneeded := true }
    else
      let buf1 := e.recvData ++ st.buf.drop e.recvData.length
      let data := buf1.take e.recvRet.toNat
      if e.sendRet ≤ 0 then
        { ret := none, st := { open0 := false, open1 := false, buf := buf1 },
          recvSrc := some 0, sent := some (1, data), closeneeded := true }
      else
        { ret := none, st := { st with buf := buf1 },
          recvSrc := some 0, sent := some (1, data), closeneeded := false }
  else if e.ready1 then
    if e.recvRet ≤ 0 then
      { ret := none, st := { st with open0 := false, open1 := false },
        recvSrc := some 1, sent := none, closeneeded := true }
    else
      let buf1 := e.recvData ++ st.buf.drop e.recvData.length
      let data := buf1.take e.recvRet.toNat
      if e.sendRet ≤ 0 then
        { ret := none, st := { open0 := false, open1 := false, buf := buf1 },
          recvSrc := some 1, sent := some (0, data), closeneeded := true }
      else
        { ret := none, st := { st with buf := buf1 },
          recvSrc := some 1, sent := some (0, data), closeneeded := false }
  else
    { ret := none, st := st, recvSrc := none, sent := none, closeneeded := false }

/-- Run of the datapipe.c loop on a finite prefix of the oracle stream. -/
def Datapipe.run (st : LoopState) : List IterEnv → List StepOut
  | [] => []
  | e :: es =>
    let o := Datapipe.loopStep st e
    if o.ret.isSome then [o] else o :: Datapipe.run o.st es

/-! ## Concrete inputs used to exercise the theorems -/

/-- A loop state with both sockets open and a zeroed 4096-byte buffer. -/
def stW : LoopState :=
  { open0 := true, open1 := true, buf := List.replicate BUFSZ 0 }

/-- An iteration oracle: both sockets ready, a 2-byte read fully sent. -/
def eW : IterEnv :=
  { selectRet := 1, ready0 := true, ready1 := true,
    recvRet := 2, recvData := [80, 73], sendRet := 2 }

/-- An iteration oracle where the read on `sockfd[1]` reports end of stream. -/
def eEof : IterEnv :=
  { selectRet := 1, ready0 := false, ready1 := true,
    recvRet := 0, recvData := [], sendRet := 7 }

/-- An iteration oracle with a short write: 2 bytes read, `send` reports 1. -/
def eShort : IterEnv :=
  { selectRet := 0, ready0 := true, ready1 := false,
    recvRet := 2, recvData := [10, 20], sendRet := 1 }

/-- A setup oracle on which every call succeeds (`inet_addr` yields the
address 127.0.0.1, so `gethostbyname` is never consulted). -/
def envW : SetupEnv :=
  { argc := 5, portArg := fun _ => 8080, inetAddr := fun _ => 16777343,
    hostent := fun _ => none, socketRet := fun _ => 3,
    connectRet := fun _ => 0, forkRet := 0 }

/-- A setup oracle on which `connect` fails for the first endpoint only. -/
def envC3 : SetupEnv :=
  { argc := 5, portArg := fun _ => 8080, inetAddr := fun _ => 16777343,
    hostent := fun _ => none, socketRet := fun _ => 3,
    connectRet := fun i => if i = 0 then -1 else 0, forkRet := 0 }

/-- A setup oracle whose port arguments parse to 65537, a value outside the
valid port range 1-65535 whose truncation to 16 bits is the nonzero 1. -/
def envC6 : SetupEnv :=
  { argc := 5, portArg := fun _ => 65537, inetAddr := fun _ => 16777343,
    hostent := fun _ => none, socketRet := fun _ => 3,
    connectRet := fun _ => 0, forkRet := 0 }

/-- A setup oracle whose first port argument parses to 65536, truncating to
the 16-bit value 0. -/
def envZero : SetupEnv :=
  { argc := 5, portArg := fun i => if i = 0 then 65536 else 8080,
    inetAddr := fun _ => 16777343, hostent := fun _ => none,
    socketRet := fun _ => 3, connectRet := fun _ => 0, forkRet := 0 }

/-! ## Branch characterizations of the loop step -/

/-- Under a well-formed oracle, the prefix of the updated buffer handed to
`send` is exactly the byte list `recv` deposited. -/
lemma IterEnv.take_recvData (e : IterEnv) (hwf : e.wf) (hn : 0 < e.recvRet)
    (buf : List Nat) :
    (e.recvData ++ buf.drop e.recvData.length).take e.recvRet.toNat = e.recvData :=
  List.take_left' (hwf hn).1

lemma Revdatapipe.loopStep_closed (st : LoopState) (e : IterEnv)
    (h : st.open0 = false ∨ st.open1 = false) :
    Revdatapipe.loopStep st e =
      { ret := some (-1), st := st, recvSrc := none, sent := none, closeneeded := false } := by
  unfold Revdatapipe.loopStep
  rcases h with h | h <;> simp [h]

lemma Revdatapipe.loopStep_selectErr (st : LoopState) (e : IterEnv)
    (ho0 : st.open0 = true) (ho1 : st.open1 = true) (h : e.selectRet < 0) :
    Revdatapipe.loopStep st e =
      { ret := some (-1), st := st, recvSrc := none, sent := none, closeneeded := false } := by
  unfold Revdatapipe.loopStep
  simp [ho0, ho1, h]

lemma Revdatapipe.loopStep_idle (st : LoopState) (e : IterEnv)
    (ho0 : st.open0 = true) (ho1 : st.open1 = true) (hsel : 0 ≤ e.selectRet)
    (hr0 : e.ready0 = false) (hr1 : e.ready1 = false) :
    Revdatapipe.loopStep st e =
      { ret := none, st := st, recvSrc := none, sent := none, closeneeded := false } := by
  unfold Revdatapipe.loopStep
  simp [ho0, ho1, hr0, hr1, show ¬ e.selectRet < 0 by omega]

lemma Revdatapipe.loopStep_recvErr0 (st : LoopState) (e : IterEnv)
    (ho0 : st.open0 = true) (ho1 : st.open1 = true) (hsel : 0 ≤ e.selectRet)
    (hr : e.ready0 = true) (hn : e.recvRet ≤ 0) :
    Revdatapipe.loopStep st e =
      { ret := none, st := { st with open0 := false, open1 := false },
        recvSrc := some 0, sent := none, closeneeded := true } := by
  unfold Revdatapipe.loopStep
  simp [ho0, ho1, hr, hn, show ¬ e.selectRet < 0 by omega]

lemma Revdatapipe.loopStep_sendErr0 (st : LoopState) (e : IterEnv)
    (ho0 : st.open0 = true) (ho1 : st.open1 = true) (hsel : 0 ≤ e.selectRet)
    (hr : e.ready0 = true) (hn : 0 < e.recvRet) (hs : e.sendRet ≤ 0) :
    Revdatapipe.loopStep st e =
      { ret := none,
        st := { open0 := false, open1 := false,
                buf := e.recvData ++ st.buf.drop e.recvData.length },
        recvSrc := some 0,
        sent := some (1, (e.recvData ++ st.buf.drop e.recvData.length).take e.recvRet.toNat),
        closeneeded := true } := by
  unfold Revdatapipe.loopStep
  simp [ho0, ho1, hr, hs, show ¬ e.selectRet < 0 by omega, show ¬ e.recvRet ≤ 0 by omega]

lemma Revdatapipe.loopStep_ok0 (st : LoopState) (e : IterEnv)
    (ho0 : st.open0 = true) (ho1 : st.open1 = true) (hsel : 0 ≤ e.selectRet)
    (hr : e.ready0 = true) (hn : 0 < e.recvRet) (hs : 0 < e.sendRet) :
    Revdatapipe.loopStep st e =
      { ret := none,
        st := { st with buf := e.recvData ++ st.buf.drop e.recvData.length },
        recvSrc := some 0,
        sent := some (1, (e.recvData ++ st.buf.drop e.recvData.length).take e.recvRet.toNat),
        closeneeded := false } := by
  unfold Revdatapipe.loopStep
  simp [ho0, ho1, hr, show ¬ e.selectRet < 0 by omega, show ¬ e.recvRet ≤ 0 by omega,
    show ¬ e.sendRet ≤ 0 by omega]

lemma Revdatapipe.loopStep_recvErr1 (st : LoopState) (e : IterEnv)
    (ho0 : st.open0 = true) (ho1 : st.open1 = true) (hsel : 0 ≤ e.selectRet)
    (hr0 : e.ready0 = false) (hr1 : e.ready1 = true) (hn : e.recvRet ≤ 0) :
    Revdatapipe.loopStep st e =
      { ret := none, st := { st with open0 := false, open1 := false },
        recvSrc := some 1, sent := none, closeneeded := true } := by
  unfold Revdatapipe.loopStep
  simp [ho0, ho1, hr0, hr1, hn, show ¬ e.selectRet < 0 by omega]

lemma Revdatapipe.loopStep_sendErr1 (st : LoopState) (e : IterEnv)
    (ho0 : st.open0 = true) (ho1 : st.open1 = true) (hsel : 0 ≤ e.selectRet)
    (hr0 : e.ready0 = false) (hr1 : e.ready1 = true) (hn : 0 < e.recvRet) (hs : e.sendRet ≤ 0) :
    Revdatapipe.loopStep st e =
      { ret := none,
        st := { open0 := false, open1 := false,
                buf := e.recvData ++ st.buf.drop e.recvData.length },
        recvSrc := some 1,
        sent := some (0, (e.recvData ++ st.buf.drop e.recvData.length).take e.recvRet.toNat),
        closeneeded := true } := by
  unfold Revdatapipe.loopStep
  simp [ho0, ho1, hr0, hr1, hs, show ¬ e.selectRet < 0 by omega, show ¬ e.recvRet ≤ 0 by omega]

lemma Revdatapipe.loopStep_ok1 (st : LoopState) (e : IterEnv)
    (ho0 : st.open0 = true) (ho1 : st.open1 = true) (hsel : 0 ≤ e.selectRet)
    (hr0 : e.ready0 = false) (hr1 : e.ready1 = true) (hn : 0 < e.recvRet) (hs : 0 < e.sendRet) :
    Revdatapipe.loopStep st e =
      { ret := none,
        st := { st with buf := e.recvData ++ st.buf.drop e.recvData.length },
        recvSrc := some 1,
        sent := some (0, (e.recvData ++ st.buf.drop e.recvData.length).take e.recvRet.toNat),
        closeneeded := false } := by
  unfold Revdatapipe.loopStep
  simp [ho0, ho1, hr0, hr1, show ¬ e.selectRet < 0 by omega, show ¬ e.recvRet ≤ 0 by omega,
    show ¬ e.sendRet ≤ 0 by omega]

lemma Datapipe.dp_loopStep_closed (st : LoopState) (e : IterEnv)
    (h : st.open0 = false ∨ st.open1 = false) :
    Datapipe.loopStep st e =
      { ret := some 30, st := st, recvSrc := none, sent := none, closeneeded := false } := by
  unfold Datapipe.loopStep
  rcases h with h | h <;> simp [h]

lemma Datapipe.dp_loopStep_selectErr (st : LoopState) (e : IterEnv)
    (ho0 : st.open0 = true) (ho1 : st.open1 = true) (h : e.selectRet < 0) :
    Datapipe.loopStep st e =
      { ret := some 30, st := st, recvSrc := none, sent := none, closeneeded := false } := by
  unfold Datapipe.loopStep
  simp [ho0, ho1, h]

lemma Datapipe.dp_loopStep_idle (st : LoopState) (e : IterEnv)
    (ho0 : st.open0 = true) (ho1 : st.open1 = true) (hsel : 0 ≤ e.selectRet)
    (hr0 : e.ready0 = false) (hr1 : e.ready1 = false) :
    Datapipe.loopStep st e =
      { ret := none, st := st, recvSrc := none, sent := none, closeneeded := false } := by
  unfold Datapipe.loopStep
  simp [ho0, ho1, hr0, hr1, show ¬ e.selectRet < 0 by omega]

lemma Datapipe.dp_loopStep_recvErr0 (st : LoopState) (e : IterEnv)
    (ho0 : st.open0 = true) (ho1 : st.open1 = true) (hsel : 0 ≤ e.selectRet)
    (hr : e.ready0 = true) (hn : e.recvRet ≤ 0) :
    Datapipe.loopStep st e =
      { ret := none, st := { st with open0 := false, open1 := false },
        recvSrc := some 0, sent := none, closeneeded := true } := by
  unfold Datapipe.loopStep
  simp [ho0, ho1, hr, hn, show ¬ e.selectRet < 0 by omega]

lemma Datapipe.dp_loopStep_sendErr0 (st : LoopState) (e : IterEnv)
    (ho0 : st.open0 = true) (ho1 : st.open1 = true) (hsel : 0 ≤ e.selectRet)
    (hr : e.ready0 = true) (hn : 0 < e.recvRet) (hs : e.sendRet ≤ 0) :
    Datapipe.loopStep st e =
      { ret := none,
        st := { open0 := false, open1 := false,
                buf := e.recvData ++ st.buf.drop e.recvData.length },
        recvSrc := some 0,
        sent := some (1, (e.recvData ++ st.buf.drop e.recvData.length).take e.recvRet.toNat),
        closeneeded := true } := by
  unfold Datapipe.loopStep
  simp [ho0, ho1, hr, hs, show ¬ e.selectRet < 0 by omega, show ¬ e.recvRet ≤ 0 by omega]

lemma Datapipe.dp_loopStep_ok0 (st : LoopState) (e : IterEnv)
    (ho0 : st.open0 = true) (ho1 : st.open1 = true) (hsel : 0 ≤ e.selectRet)
    (hr : e.ready0 = true) (hn : 0 < e.recvRet) (hs : 0 < e.sendRet) :
    Datapipe.loopStep st e =
      { ret := none,
        st := { st with buf := e.recvData ++ st.buf.drop e.recvData.length },
        recvSrc := some 0,
        sent := some (1, (e.recvData ++ st.buf.drop e.recvData.length).take e.recvRet.toNat),
        closeneeded := false } := by
  unfold Datapipe.loopStep
  simp [ho0, ho1, hr, show ¬ e.selectRet < 0 by omega, show ¬ e.recvRet ≤ 0 by omega,
    show ¬ e.sendRet ≤ 0 by omega]

lemma Datapipe.dp_loopStep_recvErr1 (st : LoopState) (e : IterEnv)
    (ho0 : st.open0 = true) (ho1 : st.open1 = true) (hsel : 0 ≤ e.selectRet)
    (hr0 : e.ready0 = false) (hr1 : e.ready1 = true) (hn : e.recvRet ≤ 0) :
    Datapipe.loopStep st e =
      { ret := none, st := { st with open0 := false, open1 := false },
        recvSrc := some 1, sent := none, closeneeded := true } := by
  unfold Datapipe.loopStep
  simp [ho0, ho1, hr0, hr1, hn, show ¬ e.selectRet < 0 by omega]

lemma Datapipe.dp_loopStep_sendErr1 (st : LoopState) (e : IterEnv)
    (ho0 : st.open0 = true) (ho1 : st.open1 = true) (hsel : 0 ≤ e.selectRet)
    (hr0 : e.ready0 = false) (hr1 : e.ready1 = true) (hn : 0 < e.recvRet) (hs : e.sendRet ≤ 0) :
    Datapipe.loopStep st e =
      { ret := none,
        st := { open0 := false, open1 := false,
                buf := e.recvData ++ st.buf.drop e.recvData.length },
        recvSrc := some 1,
        sent := some (0, (e.recvData ++ st.buf.drop e.recvData.length).take e.recvRet.toNat),
        closeneeded := true } := by
  unfold Datapipe.loopStep
  simp [ho0, ho1, hr0, hr1, hs, show ¬ e.selectRet < 0 by omega, show ¬ e.recvRet ≤ 0 by omega]

lemma Datapipe.dp_loopStep_ok1 (st : LoopState) (e : IterEnv)
    (ho0 : st.open0 = true) (ho1 : st.open1 = true) (hsel : 0 ≤ e.selectRet)
    (hr0 : e.ready0 = false) (hr1 : e.ready1 = true) (hn : 0 < e.recvRet) (hs : 0 < e.sendRet) :
    Datapipe.loopStep st e =
      { ret := none,
        st := { st with buf := e.recvData ++ st.buf.drop e.recvData.length },
        recvSrc := some 1,
        sent := some (0, (e.recvData ++ st.buf.drop e.recvData.length).take e.recvRet.toNat),
        closeneeded := false } := by
  unfold Datapipe.loopStep
  simp [ho0, ho1, hr0, hr1, show ¬ e.selectRet < 0 by omega, show ¬ e.recvRet ≤ 0 by omega,
    show ¬ e.sendRet ≤ 0 by omega]

/-! ## Shape lemmas for whole-iteration reasoning -/

lemma Revdatapipe.loopStep_sent_some (st : LoopState) (e : IterEnv) (t : Fin 2) (d : List Nat)
    (hd : (Revdatapipe.loopStep st e).sent = some (t, d)) :
    0 < e.recvRet ∧
    d = (e.recvData ++ st.buf.drop e.recvData.length).take e.recvRet.toNat ∧
    (Revdatapipe.loopStep st e).st.buf = e.recvData ++ st.buf.drop e.recvData.length := by
  unfold Revdatapipe.loopStep at hd ⊢
  repeat (first | (split_ifs at hd ⊢ <;> simp_all) | simp_all)

lemma Datapipe.dp_loopStep_sent_some (st : LoopState) (e : IterEnv) (t : Fin 2) (d : List Nat)
    (hd : (Datapipe.loopStep st e).sent = some (t, d)) :
    0 < e.recvRet ∧
    d = (e.recvData ++ st.buf.drop e.recvData.length).take e.recvRet.toNat ∧
    (Datapipe.loopStep st e).st.buf = e.recvData ++ st.buf.drop e.recvData.length := by
  unfold Datapipe.loopStep at hd ⊢
  repeat (first | (split_ifs at hd ⊢ <;> simp_all) | simp_all)

lemma Revdatapipe.loopStep_buf_shape (st : LoopState) (e : IterEnv) :
    (Revdatapipe.loopStep st e).st.buf = st.buf ∨
    (0 < e.recvRet ∧
     (Revdatapipe.loopStep st e).st.buf = e.recvData ++ st.buf.drop e.recvData.length) := by
  unfold Revdatapipe.loopStep
  repeat (first | (split_ifs <;> simp_all) | simp_all)

lemma Datapipe.dp_loopStep_buf_shape (st : LoopState) (e : IterEnv) :
    (Datapipe.loopStep st e).st.buf = st.buf ∨
    (0 < e.recvRet ∧
     (Datapipe.loopStep st e).st.buf = e.recvData ++ st.buf.drop e.recvData.length) := by
  unfold Datapipe.loopStep
  repeat (first | (split_ifs <;> simp_all) | simp_all)

lemma Revdatapipe.loopStep_ret_shape (st : LoopState) (e : IterEnv) :
    (Revdatapipe.loopStep st e).ret = none ∨
    ((Revdatapipe.loopStep st e).ret = some (-1) ∧
     (Revdatapipe.loopStep st e).sent = none) := by
  unfold Revdatapipe.loopStep
  repeat (first | (split_ifs <;> simp_all) | simp_all)

lemma Datapipe.dp_loopStep_ret_shape (st : LoopState) (e : IterEnv) :
    (Datapipe.loopStep st e).ret = none ∨
    ((Datapipe.loopStep st e).ret = some 30 ∧
     (Datapipe.loopStep st e).sent = none) := by
  unfold Datapipe.loopStep
  repeat (first | (split_ifs <;> simp_all) | simp_all)

lemma Revdatapipe.run_closed (st : LoopState) (h : st.open0 = false ∨ st.open1 = false)
    (es : List IterEnv) :
    ∀ o ∈ Revdatapipe.run st es, o.sent = none ∧ o.ret = some (-1) := by
  cases es with
  | nil => simp [Revdatapipe.run]
  | cons e es =>
    unfold Revdatapipe.run
    rw [Revdatapipe.loopStep_closed st e h]
    simp

lemma Datapipe.dp_run_closed (st : LoopState) (h : st.open0 = false ∨ st.open1 = false)
    (es : List IterEnv) :
    ∀ o ∈ Datapipe.run st es, o.sent = none ∧ o.ret = some 30 := by
  cases es with
  | nil => simp [Datapipe.run]
  | cons e es =>
    unfold Datapipe.run
    rw [Datapipe.dp_loopStep_closed st e h]
    simp

lemma Revdatapipe.run_ret (st : LoopState) (es : List IterEnv) :
    ∀ o ∈ Revdatapipe.run st es, ∀ c, o.ret = some c → c = -1 := by
  induction es generalizing st with
  | nil => simp [Revdatapipe.run]
  | cons e es ih =>
    intro o ho c hc
    unfold Revdatapipe.run at ho
    rcases Revdatapipe.loopStep_ret_shape st e with hr | ⟨hr, _⟩ <;> simp [hr] at ho
    · rcases ho with ho | ho
      · rw [ho] at hc; rw [hr] at hc; exact absurd hc (by simp)
      · exact ih _ o ho c hc
    · rw [ho] at hc; rw [hr] at hc; exact (Option.some.injEq _ _).mp hc.symm ▸ rfl

lemma Datapipe.dp_run_ret (st : LoopState) (es : List IterEnv) :
    ∀ o ∈ Datapipe.run st es, ∀ c, o.ret = some c → c = 30 := by
  induction es generalizing st with
  | nil => simp [Datapipe.run]
  | cons e es ih =>
    intro o ho c hc
    unfold Datapipe.run at ho
    rcases Datapipe.dp_loopStep_ret_shape st e with hr | ⟨hr, _⟩ <;> simp [hr] at ho
    · rcases ho with ho | ho
      · rw [ho] at hc; rw [hr] at hc; exact absurd hc (by simp)
      · exact ih _ o ho c hc
    · rw [ho] at hc; rw [hr] at hc; exact (Option.some.injEq _ _).mp hc.symm ▸ rfl

lemma Revdatapipe.run_length (st : LoopState) (es : List IterEnv)
    (h : ∀ o ∈ Revdatapipe.run st es, o.ret = none) :
    (Revdatapipe.run st es).length = es.length := by
  induction es generalizing st with
  | nil => simp [Revdatapipe.run]
  | cons e es ih =>
    unfold Revdatapipe.run at h ⊢
    rcases hr : (Revdatapipe.loopStep st e).ret with _ | c
    · simp [hr] at h ⊢
      exact ih _ h
    · exfalso
      have := h (Revdatapipe.loopStep st e) (by simp [hr])
      rw [hr] at this
      exact absurd this (by simp)

lemma Datapipe.dp_run_length (st : LoopState) (es : List IterEnv)
    (h : ∀ o ∈ Datapipe.run st es, o.ret = none) :
    (Datapipe.run st es).length = es.length := by
  induction es generalizing st with
  | nil => simp [Datapipe.run]
  | cons e es ih =>
    unfold Datapipe.run at h ⊢
    rcases hr : (Datapipe.loopStep st e).ret with _ | c
    · simp [hr] at h ⊢
      exact ih _ h
    · exfalso
      have := h (Datapipe.loopStep st e) (by simp [hr])
      rw [hr] at this
      exact absurd this (by simp)

/-! ## Setup lemmas -/

lemma Revdatapipe.leg_ok (env : SetupEnv) (i : Fin 2)
    (hport : ¬ env.portArg i % 65536 = 0)
    (haddr : env.inetAddr i = INADDR_NONE → env.hostent i ≠ none)
    (hsock : 0 ≤ env.socketRet i) (log : List String) :
    Revdatapipe.leg env i log =
      .ok (decide (env.connectRet i = 0))
        (if env.connectRet i = 0 then log else log ++ ["connect"]) := by
  unfold Revdatapipe.leg Revdatapipe.legSock
  rw [if_neg hport]
  by_cases hi : env.inetAddr i = INADDR_NONE
  · rw [if_pos hi]
    rcases hh : env.hostent i with _ | a
    · exact absurd hh (haddr hi)
    · by_cases hc : env.connectRet i = 0 <;>
        simp [hh, hc, show ¬ env.socketRet i < 0 by omega]
  · rw [if_neg hi]
    by_cases hc : env.connectRet i = 0 <;>
      simp [hc, show ¬ env.socketRet i < 0 by omega]

lemma Datapipe.dp_leg_ok (env : SetupEnv) (i : Fin 2)
    (hport : ¬ env.portArg i % 65536 = 0)
    (haddr : env.inetAddr i = INADDR_NONE → env.hostent i ≠ none)
    (hsock : 0 ≤ env.socketRet i) (log : List String) :
    Datapipe.leg env i log =
      .ok (decide (env.connectRet i = 0))
        (if env.connectRet i = 0 then log else log ++ ["connect"]) := by
  unfold Datapipe.leg Datapipe.legSock
  rw [if_neg hport]
  by_cases hi : env.inetAddr i = INADDR_NONE
  · rw [if_pos hi]
    rcases hh : env.hostent i with _ | a
    · exact absurd hh (haddr hi)
    · by_cases hc : env.connectRet i = 0 <;>
        simp [hh, hc, show ¬ env.socketRet i < 0 by omega]
  · rw [if_neg hi]
    by_cases hc : env.connectRet i = 0 <;>
      simp [hc, show ¬ env.socketRet i < 0 by omega]

lemma Revdatapipe.leg_ok_inv (env : SetupEnv) (i : Fin 2) (log : List String)
    (b : Bool) (lg : List String)
    (h : Revdatapipe.leg env i log = .ok b lg) :
    ¬ env.portArg i % 65536 = 0 ∧
    (env.inetAddr i = INADDR_NONE → env.hostent i ≠ none) ∧
    0 ≤ env.socketRet i ∧ b = decide (env.connectRet i = 0) := by
  unfold Revdatapipe.leg Revdatapipe.legSock at h
  by_cases hp : env.portArg i % 65536 = 0
  · simp [hp] at h
  · rw [if_neg hp] at h
    by_cases hi : env.inetAddr i = INADDR_NONE
    · rw [if_pos hi] at h
      rcases hh : env.hostent i with _ | a
      · simp [hh] at h
      · rw [hh] at h
        by_cases hs : env.socketRet i < 0
        · simp [hs] at h
        · by_cases hc : env.connectRet i = 0 <;> simp [hs, hc] at h <;>
            simp [hp, hi, hh, hc, h, show 0 ≤ env.socketRet i by omega]
    · rw [if_neg hi] at h
      by_cases hs : env.socketRet i < 0
      · simp [hs] at h
      · by_cases hc : env.connectRet i = 0 <;> simp [hs, hc] at h <;>
          simp [hp, hi, hc, h, show 0 ≤ env.socketRet i by omega]

lemma Datapipe.dp_leg_ok_inv (env : SetupEnv) (i : Fin 2) (log : List String)
    (b : Bool) (lg : List String)
    (h : Datapipe.leg env i log = .ok b lg) :
    ¬ env.portArg i % 65536 = 0 ∧
    (env.inetAddr i = INADDR_NONE → env.hostent i ≠ none) ∧
    0 ≤ env.socketRet i ∧ b = decide (env.connectRet i = 0) := by
  unfold Datapipe.leg Datapipe.legSock at h
  by_cases hp : env.portArg i % 65536 = 0
  · simp [hp] at h
  · rw [if_neg hp] at h
    by_cases hi : env.inetAddr i = INADDR_NONE
    · rw [if_pos hi] at h
      rcases hh : env.hostent i with _ | a
      · simp [hh] at h
      · rw [hh] at h
        by_cases hs : env.socketRet i < 0
        · simp [hs] at h
        · by_cases hc : env.connectRet i = 0 <;> simp [hs, hc] at h <;>
            simp [hp, hi, hh, hc, h, show 0 ≤ env.socketRet i by omega]
    · rw [if_neg hi] at h
      by_cases hs : env.socketRet i < 0
      · simp [hs] at h
      · by_cases hc : env.connectRet i = 0 <;> simp [hs, hc] at h <;>
          simp [hp, hi, hc, h, show 0 ≤ env.socketRet i by omega]

lemma Revdatapipe.setup_ok (env : SetupEnv)
    (hargc : env.argc = 5)
    (hport : ∀ i, ¬ env.portArg i % 65536 = 0)
    (haddr : ∀ i, env.inetAddr i = INADDR_NONE → env.hostent i ≠ none)
    (hsock : ∀ i, 0 ≤ env.socketRet i) :
    Revdatapipe.setup env =
      .toLoop (decide (env.connectRet 0 = 0)) (decide (env.connectRet 1 = 0))
        ((if env.connectRet 0 = 0 then ([] : List String) else ["connect"]) ++
         (if env.connectRet 1 = 0 then [] else ["connect"])) := by
  by_cases hc0 : env.connectRet 0 = 0 <;> by_cases hc1 : env.connectRet 1 = 0 <;>
    simp [Revdatapipe.setup, hargc,
      Revdatapipe.leg_ok env 0 (hport 0) (haddr 0) (hsock 0),
      Revdatapipe.leg_ok env 1 (hport 1) (haddr 1) (hsock 1), hc0, hc1]

lemma Datapipe.dp_setup_ok (env : SetupEnv)
    (hargc : env.argc = 5)
    (hport : ∀ i, ¬ env.portArg i % 65536 = 0)
    (haddr : ∀ i, env.inetAddr i = INADDR_NONE → env.hostent i ≠ none)
    (hsock : ∀ i, 0 ≤ env.socketRet i)
    (hfork : env.forkRet = 0) :
    Datapipe.setup env =
      .toLoop (decide (env.connectRet 0 = 0)) (decide (env.connectRet 1 = 0))
        ((if env.connectRet 0 = 0 then ([] : List String) else ["connect"]) ++
         (if env.connectRet 1 = 0 then [] else ["connect"])) := by
  by_cases hc0 : env.connectRet 0 = 0 <;> by_cases hc1 : env.connectRet 1 = 0 <;>
    simp [Datapipe.setup, hargc, hfork,
      Datapipe.dp_leg_ok env 0 (hport 0) (haddr 0) (hsock 0),
      Datapipe.dp_leg_ok env 1 (hport 1) (haddr 1) (hsock 1), hc0, hc1]

lemma Revdatapipe.setup_toLoop_inv (env : SetupEnv) (o0 o1 : Bool) (log : List String)
    (h : Revdatapipe.setup env = .toLoop o0 o1 log) :
    env.argc = 5 ∧
    (∀ i, ¬ env.portArg i % 65536 = 0) ∧
    (∀ i, env.inetAddr i = INADDR_NONE → env.hostent i ≠ none) ∧
    (∀ i, 0 ≤ env.socketRet i) ∧
    o0 = decide (env.connectRet 0 = 0) ∧ o1 = decide (env.connectRet 1 = 0) := by
  unfold Revdatapipe.setup at h
  by_cases ha : env.argc ≠ 5
  · simp [ha] at h
  · rw [if_neg ha] at h
    rcases h0 : Revdatapipe.leg env 0 [] with ⟨c, lg⟩ | ⟨b0, lg0⟩
    · rw [h0] at h; simp at h
    · rw [h0] at h
      dsimp only at h
      rcases h1 : Revdatapipe.leg env 1 lg0 with ⟨c, lg⟩ | ⟨b1, lg1⟩
      · rw [h1] at h; simp at h
      · rw [h1] at h
        dsimp only at h
        obtain ⟨hp0, hi0, hs0, hb0⟩ := Revdatapipe.leg_ok_inv env 0 [] b0 lg0 h0
        obtain ⟨hp1, hi1, hs1, hb1⟩ := Revdatapipe.leg_ok_inv env 1 lg0 b1 lg1 h1
        simp only [SetupResult.toLoop.injEq] at h
        obtain ⟨hx0, hx1, _⟩ := h
        refine ⟨by omega, ?_, ?_, ?_, ?_, ?_⟩
        · intro i; fin_cases i <;> assumption
        · intro i; fin_cases i <;> (intro hi; first | exact hi0 hi | exact hi1 hi)
        · intro i; fin_cases i <;> assumption
        · rw [← hx0]; exact hb0
        · rw [← hx1]; exact hb1

lemma Datapipe.dp_setup_toLoop_inv (env : SetupEnv) (o0 o1 : Bool) (log : List String)
    (h : Datapipe.setup env = .toLoop o0 o1 log) :
    env.argc = 5 ∧
    (∀ i, ¬ env.portArg i % 65536 = 0) ∧
    (∀ i, env.inetAddr i = INADDR_NONE → env.hostent i ≠ none) ∧
    (∀ i, 0 ≤ env.socketRet i) ∧
    ¬ env.forkRet = -1 ∧ ¬ 0 < env.forkRet ∧
    o0 = decide (env.connectRet 0 = 0) ∧ o1 = decide (env.connectRet 1 = 0) := by
  unfold Datapipe.setup at h
  by_cases ha : env.argc ≠ 5
  · simp [ha] at h
  · rw [if_neg ha] at h
    rcases h0 : Datapipe.leg env 0 [] with ⟨c, lg⟩ | ⟨b0, lg0⟩
    · rw [h0] at h; simp at h
    · rw [h0] at h
      dsimp only at h
      rcases h1 : Datapipe.leg env 1 lg0 with ⟨c, lg⟩ | ⟨b1, lg1⟩
      · rw [h1] at h; simp at h
      · rw [h1] at h
        dsimp only at h
        by_cases hf1 : env.forkRet = -1
        · simp [hf1] at h
        · rw [if_neg hf1] at h
          by_cases hf2 : 0 < env.forkRet
          · simp [hf2] at h
          · rw [if_neg hf2] at h
            obtain ⟨hp0, hi0, hs0, hb0⟩ := Datapipe.dp_leg_ok_inv env 0 [] b0 lg0 h0
            obtain ⟨hp1, hi1, hs1, hb1⟩ := Datapipe.dp_leg_ok_inv env 1 lg0 b1 lg1 h1
            simp only [SetupResult.toLoop.injEq] at h
            obtain ⟨hx0, hx1, _⟩ := h
            refine ⟨by omega, ?_, ?_, ?_, hf1, hf2, ?_, ?_⟩
            · intro i; fin_cases i <;> assumption
            · intro i; fin_cases i <;> (intro hi; first | exact hi0 hi | exact hi1 hi)
            · intro i; fin_cases i <;> assumption
            · rw [← hx0]; exact hb0
            · rw [← hx1]; exact hb1

/-! ## Correspondence between the two variants -/

lemma legPair (env : SetupEnv) (i : Fin 2) (log : List String) :
    (∃ lg, Revdatapipe.leg env i log = .exit (-1) lg ∧ Datapipe.leg env i log = .exit 25 lg) ∨
    (Revdatapipe.leg env i log = .exit (-1) (log ++ ["socket"]) ∧
     Datapipe.leg env i log = .exit (-1) (log ++ ["socket"])) ∨
    (∃ b lg, Revdatapipe.leg env i log = .ok b lg ∧ Datapipe.leg env i log = .ok b lg) := by
  unfold Revdatapipe.leg Datapipe.leg Revdatapipe.legSock Datapipe.legSock
  by_cases hp : env.portArg i % 65536 = 0
  · exact Or.inl ⟨log ++ ["invalid target port"], by simp [hp], by simp [hp]⟩
  · by_cases hi : env.inetAddr i = INADDR_NONE
    · rcases hh : env.hostent i with _ | a
      · exact Or.inl ⟨log ++ ["gethostbyname"], by simp [hp, hi, hh], by simp [hp, hi, hh]⟩
      · by_cases hs : env.socketRet i < 0
        · exact Or.inr (Or.inl ⟨by simp [hp, hi, hh, hs], by simp [hp, hi, hh, hs]⟩)
        · by_cases hc : env.connectRet i = 0
          · exact Or.inr (Or.inr ⟨true, log,
              by simp [hp, hi, hh, hs, hc], by simp [hp, hi, hh, hs, hc]⟩)
          · exact Or.inr (Or.inr ⟨false, log ++ ["connect"],
              by simp [hp, hi, hh, hs, hc], by simp [hp, hi, hh, hs, hc]⟩)
    · by_cases hs : env.socketRet i < 0
      · exact Or.inr (Or.inl ⟨by simp [hp, hi, hs], by simp [hp, hi, hs]⟩)
      · by_cases hc : env.connectRet i = 0
        · exact Or.inr (Or.inr ⟨true, log,
            by simp [hp, hi, hs, hc], by simp [hp, hi, hs, hc]⟩)
        · exact Or.inr (Or.inr ⟨false, log ++ ["connect"],
            by simp [hp, hi, hs, hc], by simp [hp, hi, hs, hc]⟩)

lemma setupPair (env : SetupEnv) (hfork : env.forkRet = 0) :
    (∀ o0 o1 log, Revdatapipe.setup env = .toLoop o0 o1 log ↔
       Datapipe.setup env = .toLoop o0 o1 log) ∧
    (∀ log, (∃ c, Revdatapipe.setup env = .exit c log) ↔
       (∃ c, Datapipe.setup env = .exit c log)) := by
  unfold Revdatapipe.setup Datapipe.setup
  by_cases ha : env.argc ≠ 5
  · simp [ha]
  · rw [if_neg ha, if_neg ha]
    rcases legPair env 0 [] with ⟨lg, hr, hd⟩ | ⟨hr, hd⟩ | ⟨b0, lg0, hr, hd⟩ <;>
      rw [hr, hd] <;> dsimp only
    · simp
    · simp
    · rcases legPair env 1 lg0 with ⟨lg, hr1, hd1⟩ | ⟨hr1, hd1⟩ | ⟨b1, lg1, hr1, hd1⟩ <;>
        rw [hr1, hd1] <;> dsimp only
      · simp
      · simp
      · simp [hfork]

lemma Datapipe.setup_fork (env : SetupEnv)
    (hargc : env.argc = 5)
    (hport : ∀ i, ¬ env.portArg i % 65536 = 0)
    (haddr : ∀ i, env.inetAddr i = INADDR_NONE → env.hostent i ≠ none)
    (hsock : ∀ i, 0 ≤ env.socketRet i) :
    (env.forkRet = -1 → Datapipe.setup env =
        .exit 20 (((if env.connectRet 0 = 0 then ([] : List String) else ["connect"]) ++
                   (if env.connectRet 1 = 0 then [] else ["connect"])) ++ ["fork"])) ∧
    (0 < env.forkRet → Datapipe.setup env =
        .exit 0 ((if env.connectRet 0 = 0 then ([] : List String) else ["connect"]) ++
                 (if env.connectRet 1 = 0 then [] else ["connect"]))) := by
  constructor
  · intro hf
    by_cases hc0 : env.connectRet 0 = 0 <;> by_cases hc1 : env.connectRet 1 = 0 <;>
      simp [Datapipe.setup, hargc, hf,
        Datapipe.dp_leg_ok env 0 (hport 0) (haddr 0) (hsock 0),
        Datapipe.dp_leg_ok env 1 (hport 1) (haddr 1) (hsock 1), hc0, hc1]
  · intro hf
    by_cases hc0 : env.connectRet 0 = 0 <;> by_cases hc1 : env.connectRet 1 = 0 <;>
      simp [Datapipe.setup, hargc, hf, show ¬ env.forkRet = -1 by omega,
        Datapipe.dp_leg_ok env 0 (hport 0) (haddr 0) (hsock 0),
        Datapipe.dp_leg_ok env 1 (hport 1) (haddr 1) (hsock 1), hc0, hc1]

lemma loopStepPair (st : LoopState) (e : IterEnv) :
    (Revdatapipe.loopStep st e).st = (Datapipe.loopStep st e).st ∧
    (Revdatapipe.loopStep st e).recvSrc = (Datapipe.loopStep st e).recvSrc ∧
    (Revdatapipe.loopStep st e).sent = (Datapipe.loopStep st e).sent ∧
    (Revdatapipe.loopStep st e).closeneeded = (Datapipe.loopStep st e).closeneeded ∧
    ((Revdatapipe.loopStep st e).ret = none ↔ (Datapipe.loopStep st e).ret = none) ∧
    ((Revdatapipe.loopStep st e).ret ≠ none →
      (Revdatapipe.loopStep st e).ret = some (-1) ∧ (Datapipe.loopStep st e).ret = some 30) := by
  unfold Revdatapipe.loopStep Datapipe.loopStep
  repeat (first | (split_ifs <;> simp_all) | simp_all)

lemma Revdatapipe.loopStep_close_shape (st : LoopState) (e : IterEnv)
    (hcl : (Revdatapipe.loopStep st e).closeneeded = true) :
    (Revdatapipe.loopStep st e).st.open0 = false ∧
    (Revdatapipe.loopStep st e).st.open1 = false := by
  unfold Revdatapipe.loopStep at hcl ⊢
  repeat (first | (split_ifs at hcl ⊢ <;> simp_all) | simp_all)

lemma Datapipe.dp_loopStep_close_shape (st : LoopState) (e : IterEnv)
    (hcl : (Datapipe.loopStep st e).closeneeded = true) :
    (Datapipe.loopStep st e).st.open0 = false ∧
    (Datapipe.loopStep st e).st.open1 = false := by
  unfold Datapipe.loopStep at hcl ⊢
  repeat (first | (split_ifs at hcl ⊢ <;> simp_all) | simp_all)

lemma Revdatapipe.leg_exit_code (env : SetupEnv) (i : Fin 2) (log : List String)
    (c : Int) (lg : List String) (h : Revdatapipe.leg env i log = .exit c lg) : c = -1 := by
  unfold Revdatapipe.leg Revdatapipe.legSock at h
  by_cases hp : env.portArg i % 65536 = 0
  · simp [hp] at h; exact h.1.symm
  · rw [if_neg hp] at h
    by_cases hi : env.inetAddr i = INADDR_NONE
    · rw [if_pos hi] at h
      rcases hh : env.hostent i with _ | a <;> rw [hh] at h
      · simp at h; exact h.1.symm
      · by_cases hs : env.socketRet i < 0
        · simp [hs] at h; exact h.1.symm
        · by_cases hc : env.connectRet i = 0 <;> simp [hs, hc] at h
    · rw [if_neg hi] at h
      by_cases hs : env.socketRet i < 0
      · simp [hs] at h; exact h.1.symm
      · by_cases hc : env.connectRet i = 0 <;> simp [hs, hc] at h

lemma Revdatapipe.setup_exit_code (env : SetupEnv) (c : Int) (log : List String)
    (h : Revdatapipe.setup env = .exit c log) : c = -1 := by
  unfold Revdatapipe.setup at h
  by_cases ha : env.argc ≠ 5
  · simp [ha] at h; exact h.1.symm
  · rw [if_neg ha] at h
    rcases h0 : Revdatapipe.leg env 0 [] with ⟨c0, lg⟩ | ⟨b0, lg0⟩ <;> rw [h0] at h <;>
      dsimp only at h
    · simp only [SetupResult.exit.injEq] at h
      rw [← h.1]
      exact Revdatapipe.leg_exit_code env 0 [] c0 lg h0
    · rcases h1 : Revdatapipe.leg env 1 lg0 with ⟨c1, lg⟩ | ⟨b1, lg1⟩ <;> rw [h1] at h <;>
        dsimp only at h
      · simp only [SetupResult.exit.injEq] at h
        rw [← h.1]
        exact Revdatapipe.leg_exit_code env 1 lg0 c1 lg h1
      · simp at h

/-! ## Claim theorems -/

/-- C1: in every relay-loop iteration of either variant whose read returns
n > 0 bytes from the ready connection, the exact byte list the read
deposited (same length n, same order, no duplication or truncation) is
handed to the send call on the opposite connection, taken from the front of
the shared buffer where the read just stored it; symmetrically for both
directions. -/
theorem c1_byte_fidelity (st : LoopState) (e : IterEnv)
    (hwf : e.wf) (hn : 0 < e.recvRet)
    (ho0 : st.open0 = true) (ho1 : st.open1 = true) (hsel : 0 ≤ e.selectRet) :
    (e.ready0 = true →
      (Revdatapipe.loopStep st e).sent = some (1, e.recvData) ∧
      (Datapipe.loopStep st e).sent = some (1, e.recvData)) ∧
    (e.ready0 = false → e.ready1 = true →
      (Revdatapipe.loopStep st e).sent = some (0, e.recvData) ∧
      (Datapipe.loopStep st e).sent = some (0, e.recvData)) ∧
    (∀ t d, (Revdatapipe.loopStep st e).sent = some (t, d) →
      d = e.recvData ∧ d.length = e.recvRet.toNat) ∧
    (∀ t d, (Datapipe.loopStep st e).sent = some (t, d) →
      d = e.recvData ∧ d.length = e.recvRet.toNat) := by
  have htake := e.take_recvData hwf hn st.buf
  have hlen := (hwf hn).1
  refine ⟨?_, ?_, ?_, ?_⟩
  · intro hr
    rcases le_or_lt e.sendRet 0 with hs | hs
    · rw [Revdatapipe.loopStep_sendErr0 st e ho0 ho1 hsel hr hn hs,
          Datapipe.dp_loopStep_sendErr0 st e ho0 ho1 hsel hr hn hs]
      simp [htake]
    · rw [Revdatapipe.loopStep_ok0 st e ho0 ho1 hsel hr hn hs,
          Datapipe.dp_loopStep_ok0 st e ho0 ho1 hsel hr hn hs]
      simp [htake]
  · intro hr0 hr1
    rcases le_or_lt e.sendRet 0 with hs | hs
    · rw [Revdatapipe.loopStep_sendErr1 st e ho0 ho1 hsel hr0 hr1 hn hs,
          Datapipe.dp_loopStep_sendErr1 st e ho0 ho1 hsel hr0 hr1 hn hs]
      simp [htake]
    · rw [Revdatapipe.loopStep_ok1 st e ho0 ho1 hsel hr0 hr1 hn hs,
          Datapipe.dp_loopStep_ok1 st e ho0 ho1 hsel hr0 hr1 hn hs]
      simp [htake]
  · intro t d hd
    obtain ⟨-, hdd, -⟩ := Revdatapipe.loopStep_sent_some st e t d hd
    subst hdd
    rw [htake]
    exact ⟨rfl, hlen⟩
  · intro t d hd
    obtain ⟨-, hdd, -⟩ := Datapipe.dp_loopStep_sent_some st e t d hd
    subst hdd
    rw [htake]
    exact ⟨rfl, hlen⟩

/-- Witness for C1: a 2-byte read from `sockfd[0]` is passed verbatim to
the send on `sockfd[1]` in both variants. -/
theorem c1_byte_fidelity_witness :
    (Revdatapipe.loopStep stW eW).sent = some (1, [80, 73]) ∧
    (Datapipe.loopStep stW eW).sent = some (1, [80, 73]) := by
  have h := c1_byte_fidelity stW eW (by decide) (by decide) rfl rfl (by decide)
  exact h.1 rfl

/-- C2: whenever the read on the serviced connection returns zero or an
error, or the write to the other connection returns zero or an error, the
`closeneeded` flag is set; a set flag closes both connections in that same
iteration, and from the resulting state every further iteration relays no
bytes and returns from `main` (the next `select` fails on the closed
descriptors), so the process exits. -/
theorem c2_error_closes_both (st : LoopState) (e : IterEnv)
    (ho0 : st.open0 = true) (ho1 : st.open1 = true) (hsel : 0 ≤ e.selectRet) :
    ((e.ready0 = true ∨ e.ready1 = true) → (e.recvRet ≤ 0 ∨ e.sendRet ≤ 0) →
      (Revdatapipe.loopStep st e).closeneeded = true ∧
      (Datapipe.loopStep st e).closeneeded = true) ∧
    ((Revdatapipe.loopStep st e).closeneeded = true →
      (Revdatapipe.loopStep st e).st.open0 = false ∧
      (Revdatapipe.loopStep st e).st.open1 = false ∧
      (∀ es, ∀ o ∈ Revdatapipe.run (Revdatapipe.loopStep st e).st es,
        o.sent = none ∧ o.ret = some (-1))) ∧
    ((Datapipe.loopStep st e).closeneeded = true →
      (Datapipe.loopStep st e).st.open0 = false ∧
      (Datapipe.loopStep st e).st.open1 = false ∧
      (∀ es, ∀ o ∈ Datapipe.run (Datapipe.loopStep st e).st es,
        o.sent = none ∧ o.ret = some 30)) := by
  refine ⟨?_, ?_, ?_⟩
  · intro hready herr
    by_cases hr0 : e.ready0 = true
    · rcases le_or_lt e.recvRet 0 with hn | hn
      · rw [Revdatapipe.loopStep_recvErr0 st e ho0 ho1 hsel hr0 hn,
            Datapipe.dp_loopStep_recvErr0 st e ho0 ho1 hsel hr0 hn]
        exact ⟨rfl, rfl⟩
      · have hs := herr.resolve_left (by omega)
        rw [Revdatapipe.loopStep_sendErr0 st e ho0 ho1 hsel hr0 hn hs,
            Datapipe.dp_loopStep_sendErr0 st e ho0 ho1 hsel hr0 hn hs]
        exact ⟨rfl, rfl⟩
    · have hr0f : e.ready0 = false := by simpa using hr0
      have hr1 : e.ready1 = true := hready.resolve_left hr0
      rcases le_or_lt e.recvRet 0 with hn | hn
      · rw [Revdatapipe.loopStep_recvErr1 st e ho0 ho1 hsel hr0f hr1 hn,
            Datapipe.dp_loopStep_recvErr1 st e ho0 ho1 hsel hr0f hr1 hn]
        exact ⟨rfl, rfl⟩
      · have hs := herr.resolve_left (by omega)
        rw [Revdatapipe.loopStep_sendErr1 st e ho0 ho1 hsel hr0f hr1 hn hs,
            Datapipe.dp_loopStep_sendErr1 st e ho0 ho1 hsel hr0f hr1 hn hs]
        exact ⟨rfl, rfl⟩
  · intro hcl
    obtain ⟨h0, h1⟩ := Revdatapipe.loopStep_close_shape st e hcl
    exact ⟨h0, h1, fun es => Revdatapipe.run_closed _ (Or.inl h0) es⟩
  · intro hcl
    obtain ⟨h0, h1⟩ := Datapipe.dp_loopStep_close_shape st e hcl
    exact ⟨h0, h1, fun es => Datapipe.dp_run_closed _ (Or.inl h0) es⟩

/-- Witness for C2: an end-of-stream read (`recv` returns 0) on `sockfd[1]`
sets the flag and closes both sockets in both variants. -/
theorem c2_error_closes_both_witness :
    (Revdatapipe.loopStep stW eEof).closeneeded = true ∧
    (Revdatapipe.loopStep stW eEof).st.open0 = false ∧
    (Datapipe.loopStep stW eEof).closeneeded = true := by
  have h := c2_error_closes_both stW eEof rfl rfl (by decide)
  obtain ⟨hc, hcd⟩ := h.1 (Or.inr rfl) (Or.inl (by decide))
  exact ⟨hc, (h.2.1 hc).1, hcd⟩

/-- C3: when every other setup step succeeds, a failed `connect` on either
endpoint leaves that single socket closed (its open flag records exactly
whether `connect` returned 0), reports "connect", and setup still reaches
the relay loop in both variants; conversely, reaching the loop forces the
argc, port, resolution and socket checks to have passed, so a failed
`connect` is the only setup error that does not prevent entering the
loop. -/
theorem c3_connect_failure_nonfatal (env : SetupEnv)
    (hargc : env.argc = 5)
    (hport : ∀ i, ¬ env.portArg i % 65536 = 0)
    (haddr : ∀ i, env.inetAddr i = INADDR_NONE → env.hostent i ≠ none)
    (hsock : ∀ i, 0 ≤ env.socketRet i)
    (hfork : env.forkRet = 0) :
    (∃ log, Revdatapipe.setup env =
        .toLoop (decide (env.connectRet 0 = 0)) (decide (env.connectRet 1 = 0)) log ∧
        ((¬ env.connectRet 0 = 0 ∨ ¬ env.connectRet 1 = 0) → "connect" ∈ log)) ∧
    (∃ log, Datapipe.setup env =
        .toLoop (decide (env.connectRet 0 = 0)) (decide (env.connectRet 1 = 0)) log ∧
        ((¬ env.connectRet 0 = 0 ∨ ¬ env.connectRet 1 = 0) → "connect" ∈ log)) ∧
    (∀ env2 o0 o1 log, Revdatapipe.setup env2 = .toLoop o0 o1 log →
        env2.argc = 5 ∧ (∀ i, ¬ env2.portArg i % 65536 = 0) ∧
        (∀ i, env2.inetAddr i = INADDR_NONE → env2.hostent i ≠ none) ∧
        (∀ i, 0 ≤ env2.socketRet i) ∧
        o0 = decide (env2.connectRet 0 = 0) ∧ o1 = decide (env2.connectRet 1 = 0)) := by
  refine ⟨?_, ?_, fun env2 o0 o1 log h => Revdatapipe.setup_toLoop_inv env2 o0 o1 log h⟩
  · refine ⟨_, Revdatapipe.setup_ok env hargc hport haddr hsock, ?_⟩
    intro hcon
    rcases hcon with hc | hc <;> simp [hc]
  · refine ⟨_, Datapipe.dp_setup_ok env hargc hport haddr hsock hfork, ?_⟩
    intro hcon
    rcases hcon with hc | hc <;> simp [hc]

/-- Witness for C3: `connect` fails on the first endpoint only, and both
variants still reach the loop with that socket closed and the other open. -/
theorem c3_connect_failure_nonfatal_witness :
    ∃ log, Revdatapipe.setup envC3 = .toLoop false true log ∧ "connect" ∈ log := by
  obtain ⟨⟨log, h1, hm⟩, -, -⟩ :=
    c3_connect_failure_nonfatal envC3 rfl (by decide) (by decide) (by decide) rfl
  exact ⟨log, h1, hm (Or.inl (by decide))⟩

/-- C4: with `sockfd[0]` ready after a successful readiness wait, both
variants service only `sockfd[0]` in that iteration — regardless of whether
`sockfd[1]` is also ready — reading from socket 0 and (if at all) sending
to socket 1; socket 1 is never the read source of such an iteration. -/
theorem c4_priority_a_first (st : LoopState) (e : IterEnv)
    (ho0 : st.open0 = true) (ho1 : st.open1 = true) (hsel : 0 ≤ e.selectRet)
    (hr0 : e.ready0 = true) :
    ((Revdatapipe.loopStep st e).recvSrc = some 0 ∧
     (Datapipe.loopStep st e).recvSrc = some 0) ∧
    ((Revdatapipe.loopStep st e).recvSrc ≠ some 1 ∧
     (Datapipe.loopStep st e).recvSrc ≠ some 1) ∧
    (∀ t d, (Revdatapipe.loopStep st e).sent = some (t, d) → t = 1) ∧
    (∀ t d, (Datapipe.loopStep st e).sent = some (t, d) → t = 1) := by
  rcases le_or_lt e.recvRet 0 with hn | hn
  · rw [Revdatapipe.loopStep_recvErr0 st e ho0 ho1 hsel hr0 hn,
        Datapipe.dp_loopStep_recvErr0 st e ho0 ho1 hsel hr0 hn]
    simp
  · rcases le_or_lt e.sendRet 0 with hs | hs
    · rw [Revdatapipe.loopStep_sendErr0 st e ho0 ho1 hsel hr0 hn hs,
          Datapipe.dp_loopStep_sendErr0 st e ho0 ho1 hsel hr0 hn hs]
      simp
    · rw [Revdatapipe.loopStep_ok0 st e ho0 ho1 hsel hr0 hn hs,
          Datapipe.dp_loopStep_ok0 st e ho0 ho1 hsel hr0 hn hs]
      simp

/-- Witness for C4: with both sockets simultaneously ready, only socket 0
is serviced. -/
theorem c4_priority_a_first_witness :
    eW.ready1 = true ∧ (Revdatapipe.loopStep stW eW).recvSrc = some 0 ∧
    (Datapipe.loopStep stW eW).recvSrc = some 0 := by
  have h := c4_priority_a_first stW eW rfl rfl (by decide) rfl
  exact ⟨rfl, h.1.1, h.1.2⟩

/-- C5: in a serviced iteration the `closeneeded` flag is set exactly when
the read returned zero-or-negative or the write returned zero-or-negative;
in particular any positive write count — including one strictly smaller
than the number of bytes requested — leaves the flag clear, the sockets
open and the loop running, with no retry of unwritten trailing bytes. -/
theorem c5_positive_write_trusted (st : LoopState) (e : IterEnv)
    (ho0 : st.open0 = true) (ho1 : st.open1 = true) (hsel : 0 ≤ e.selectRet)
    (hready : e.ready0 = true ∨ e.ready1 = true) :
    ((Revdatapipe.loopStep st e).closeneeded = true ↔
      (e.recvRet ≤ 0 ∨ e.sendRet ≤ 0)) ∧
    ((Datapipe.loopStep st e).closeneeded = true ↔
      (e.recvRet ≤ 0 ∨ e.sendRet ≤ 0)) ∧
    (0 < e.recvRet → 0 < e.sendRet →
      (Revdatapipe.loopStep st e).closeneeded = false ∧
      (Revdatapipe.loopStep st e).ret = none ∧
      (Revdatapipe.loopStep st e).st.open0 = true ∧
      (Revdatapipe.loopStep st e).st.open1 = true ∧
      (Datapipe.loopStep st e).closeneeded = false ∧
      (Datapipe.loopStep st e).ret = none ∧
      (Datapipe.loopStep st e).st.open0 = true ∧
      (Datapipe.loopStep st e).st.open1 = true) := by
  by_cases hr0 : e.ready0 = true
  · rcases le_or_lt e.recvRet 0 with hn | hn
    · rw [Revdatapipe.loopStep_recvErr0 st e ho0 ho1 hsel hr0 hn,
          Datapipe.dp_loopStep_recvErr0 st e ho0 ho1 hsel hr0 hn]
      refine ⟨by simp [hn], by simp [hn], fun hn2 _ => absurd hn2 (by omega)⟩
    · rcases le_or_lt e.sendRet 0 with hs | hs
      · rw [Revdatapipe.loopStep_sendErr0 st e ho0 ho1 hsel hr0 hn hs,
            Datapipe.dp_loopStep_sendErr0 st e ho0 ho1 hsel hr0 hn hs]
        refine ⟨by simp [hs], by simp [hs], fun _ hs2 => absurd hs2 (by omega)⟩
      · rw [Revdatapipe.loopStep_ok0 st e ho0 ho1 hsel hr0 hn hs,
            Datapipe.dp_loopStep_ok0 st e ho0 ho1 hsel hr0 hn hs]
        refine ⟨by simp; omega, by simp; omega, ?_⟩
        intro _ _
        exact ⟨rfl, rfl, ho0, ho1, rfl, rfl, ho0, ho1⟩
  · have hr0f : e.ready0 = false := by simpa using hr0
    have hr1 : e.ready1 = true := hready.resolve_left hr0
    rcases le_or_lt e.recvRet 0 with hn | hn
    · rw [Revdatapipe.loopStep_recvErr1 st e ho0 ho1 hsel hr0f hr1 hn,
          Datapipe.dp_loopStep_recvErr1 st e ho0 ho1 hsel hr0f hr1 hn]
      refine ⟨by simp [hn], by simp [hn], fun hn2 _ => absurd hn2 (by omega)⟩
    · rcases le_or_lt e.sendRet 0 with hs | hs
      · rw [Revdatapipe.loopStep_sendErr1 st e ho0 ho1 hsel hr0f hr1 hn hs,
            Datapipe.dp_loopStep_sendErr1 st e ho0 ho1 hsel hr0f hr1 hn hs]
        refine ⟨by simp [hs], by simp [hs], fun _ hs2 => absurd hs2 (by omega)⟩
      · rw [Revdatapipe.loopStep_ok1 st e ho0 ho1 hsel hr0f hr1 hn hs,
            Datapipe.dp_loopStep_ok1 st e ho0 ho1 hsel hr0f hr1 hn hs]
        refine ⟨by simp; omega, by simp; omega, ?_⟩
        intro _ _
        exact ⟨rfl, rfl, ho0, ho1, rfl, rfl, ho0, ho1⟩

/-- Witness for C5: a short write (2 bytes read, `send` returns 1) does not
set the flag and the loop keeps both sockets open. -/
theorem c5_positive_write_trusted_witness :
    (Revdatapipe.loopStep stW eShort).closeneeded = false ∧
    (Revdatapipe.loopStep stW eShort).ret = none ∧
    (Datapipe.loopStep stW eShort).closeneeded = false := by
  have h := c5_positive_write_trusted stW eShort rfl rfl (by decide) (Or.inl rfl)
  obtain ⟨a, b, -, -, c, -, -, -⟩ := h.2.2 (by decide) (by decide)
  exact ⟨a, b, c⟩

/-- C6, as claimed, is false (see `c6_port_out_of_range_accepted`): the
code only rejects a port argument whose value is divisible by 65536, i.e.
whose truncation to an unsigned 16-bit quantity is zero.  Amended claim:
with correct argc, a port value with zero 16-bit truncation makes the
process exit before the loop (status -1 in revdatapipe.c, 25 in
datapipe.c), the loop is reached only when both port values have nonzero
truncation, and every in-range value 1-65535 passes; but out-of-range
values with nonzero truncation are accepted too. -/
theorem c6_port_check_mod_65536 (env : SetupEnv) (hargc : env.argc = 5) :
    (env.portArg 0 % 65536 = 0 →
      Revdatapipe.setup env = .exit (-1) ["invalid target port"] ∧
      Datapipe.setup env = .exit 25 ["invalid target port"]) ∧
    (∀ o0 o1 log, Revdatapipe.setup env = .toLoop o0 o1 log →
      ¬ env.portArg 0 % 65536 = 0 ∧ ¬ env.portArg 1 % 65536 = 0) ∧
    (∀ o0 o1 log, Datapipe.setup env = .toLoop o0 o1 log →
      ¬ env.portArg 0 % 65536 = 0 ∧ ¬ env.portArg 1 % 65536 = 0) ∧
    (∀ v : Int, 1 ≤ v → v ≤ 65535 → ¬ v % 65536 = 0) := by
  refine ⟨?_, ?_, ?_, ?_⟩
  · intro hp
    constructor <;>
      simp [Revdatapipe.setup, Datapipe.setup, Revdatapipe.leg, Datapipe.leg, hargc, hp]
  · intro o0 o1 log h
    obtain ⟨-, hp, -⟩ := Revdatapipe.setup_toLoop_inv env o0 o1 log h
    exact ⟨hp 0, hp 1⟩
  · intro o0 o1 log h
    obtain ⟨-, hp, -⟩ := Datapipe.dp_setup_toLoop_inv env o0 o1 log h
    exact ⟨hp 0, hp 1⟩
  · intro v h1 h2
    omega

/-- Counterexample to C6 as stated: the port value 65537 is outside the
valid range 1-65535, yet both variants pass the port check (65537 mod 65536
is 1, not 0) and setup reaches the relay loop instead of exiting. -/
theorem c6_port_out_of_range_accepted :
    ((65537 : Int) < 1 ∨ (65535 : Int) < 65537) ∧
    envC6.portArg 0 = 65537 ∧
    Revdatapipe.setup envC6 = .toLoop true true [] ∧
    Datapipe.setup envC6 = .toLoop true true [] := by
  refine ⟨by decide, by decide, by decide, by decide⟩

/-- Witness for the amended C6: the port value 65536 truncates to 0 and
both variants exit before the loop with the invalid-port diagnostic. -/
theorem c6_port_check_mod_65536_witness :
    Revdatapipe.setup envZero = .exit (-1) ["invalid target port"] ∧
    Datapipe.setup envZero = .exit 25 ["invalid target port"] := by
  exact (c6_port_check_mod_65536 envZero rfl).1 (by decide)

/-- C7: the relay loop never terminates normally: every iteration outcome
that returns from `main` carries the select-failure status (-1 in
revdatapipe.c, 30 in datapipe.c), which is nonzero — so the `return 0`
after the loop is never reached — and when no iteration returns, the loop
consumes the whole oracle stream and is still running. -/
theorem c7_loop_exits_only_on_select_failure (st : LoopState) (es : List IterEnv) :
    (∀ o ∈ Revdatapipe.run st es, ∀ c, o.ret = some c → c = -1 ∧ c ≠ 0) ∧
    (∀ o ∈ Datapipe.run st es, ∀ c, o.ret = some c → c = 30 ∧ c ≠ 0) ∧
    ((∀ o ∈ Revdatapipe.run st es, o.ret = none) →
      (Revdatapipe.run st es).length = es.length) ∧
    ((∀ o ∈ Datapipe.run st es, o.ret = none) →
      (Datapipe.run st es).length = es.length) := by
  refine ⟨?_, ?_, Revdatapipe.run_length st es, Datapipe.dp_run_length st es⟩
  · intro o ho c hc
    have h := Revdatapipe.run_ret st es o ho c hc
    exact ⟨h, by omega⟩
  · intro o ho c hc
    have h := Datapipe.dp_run_ret st es o ho c hc
    exact ⟨h, by omega⟩

/-- Witness for C7: an error-free iteration stream is fully consumed with
the loop still running in both variants. -/
theorem c7_loop_exits_only_on_select_failure_witness :
    (Revdatapipe.run stW [eW]).length = 1 ∧ (Datapipe.run stW [eW]).length = 1 := by
  have h := c7_loop_exits_only_on_select_failure stW [eW]
  exact ⟨h.2.2.1 (by decide), h.2.2.2 (by decide)⟩

/-- C8: bytes are never echoed back to the connection they were read from:
in every iteration of either variant in which a send occurs, the read
source is one socket and the send target is the other (read 0 sends to 1,
read 1 sends to 0). -/
theorem c8_no_echo (st : LoopState) (e : IterEnv) :
    (∀ t d, (Revdatapipe.loopStep st e).sent = some (t, d) →
      ((Revdatapipe.loopStep st e).recvSrc = some 0 ∧ t = 1) ∨
      ((Revdatapipe.loopStep st e).recvSrc = some 1 ∧ t = 0)) ∧
    (∀ t d, (Datapipe.loopStep st e).sent = some (t, d) →
      ((Datapipe.loopStep st e).recvSrc = some 0 ∧ t = 1) ∨
      ((Datapipe.loopStep st e).recvSrc = some 1 ∧ t = 0)) := by
  constructor
  · intro t d hd
    unfold Revdatapipe.loopStep at hd ⊢
    repeat (first | (split_ifs at hd ⊢ <;> simp_all) | simp_all)
  · intro t d hd
    unfold Datapipe.loopStep at hd ⊢
    repeat (first | (split_ifs at hd ⊢ <;> simp_all) | simp_all)

/-- Witness for C8: the 2-byte transfer read from socket 0 goes to socket 1
in both variants. -/
theorem c8_no_echo_witness :
    (Revdatapipe.loopStep stW eW).recvSrc = some 0 ∧
    (Datapipe.loopStep stW eW).recvSrc = some 0 := by
  have h := c8_no_echo stW eW
  have h1 := h.1 1 [80, 73] (by decide)
  have h2 := h.2 1 [80, 73] (by decide)
  rcases h1 with ⟨ha, -⟩ | ⟨-, hb⟩
  · rcases h2 with ⟨hc, -⟩ | ⟨-, hd⟩
    · exact ⟨ha, hc⟩
    · exact absurd hd (by decide)
  · exact absurd hb (by decide)

/-- C9: every read is issued for at most `sizeof(buf)` = 4096 bytes, the
buffer keeps length 4096 across iterations, and a send happens only after a
read that returned n with 1 ≤ n ≤ 4096, passing exactly the first n bytes
of the buffer — never data beyond the count just read. -/
theorem c9_buffer_bounds (st : LoopState) (e : IterEnv)
    (hbuf : st.buf.length = BUFSZ) (hwf : e.wf) :
    ((Revdatapipe.loopStep st e).st.buf.length = BUFSZ ∧
     (Datapipe.loopStep st e).st.buf.length = BUFSZ) ∧
    (∀ t d, (Revdatapipe.loopStep st e).sent = some (t, d) →
      0 < e.recvRet ∧ e.recvRet ≤ 4096 ∧ d.length = e.recvRet.toNat ∧
      d = (Revdatapipe.loopStep st e).st.buf.take e.recvRet.toNat) ∧
    (∀ t d, (Datapipe.loopStep st e).sent = some (t, d) →
      0 < e.recvRet ∧ e.recvRet ≤ 4096 ∧ d.length = e.recvRet.toNat ∧
      d = (Datapipe.loopStep st e).st.buf.take e.recvRet.toNat) := by
  have hlenbuf : 0 < e.recvRet →
      (e.recvData ++ st.buf.drop e.recvData.length).length = BUFSZ := by
    intro h
    obtain ⟨h1, h2⟩ := hwf h
    simp only [List.length_append, List.length_drop, hbuf]
    unfold BUFSZ at *
    omega
  refine ⟨⟨?_, ?_⟩, ?_, ?_⟩
  · rcases Revdatapipe.loopStep_buf_shape st e with hb | ⟨hn, hb⟩
    · rw [hb, hbuf]
    · rw [hb]; exact hlenbuf hn
  · rcases Datapipe.dp_loopStep_buf_shape st e with hb | ⟨hn, hb⟩
    · rw [hb, hbuf]
    · rw [hb]; exact hlenbuf hn
  · intro t d hd
    obtain ⟨hn, hdd, hbb⟩ := Revdatapipe.loopStep_sent_some st e t d hd
    obtain ⟨h1, h2⟩ := hwf hn
    refine ⟨hn, h2, ?_, ?_⟩
    · rw [hdd, e.take_recvData hwf hn st.buf]; exact h1
    · rw [hdd, hbb]
  · intro t d hd
    obtain ⟨hn, hdd, hbb⟩ := Datapipe.dp_loopStep_sent_some st e t d hd
    obtain ⟨h1, h2⟩ := hwf hn
    refine ⟨hn, h2, ?_, ?_⟩
    · rw [hdd, e.take_recvData hwf hn st.buf]; exact h1
    · rw [hdd, hbb]

/-- Witness for C9 at a concrete state and oracle. -/
theorem c9_buffer_bounds_witness :
    (Revdatapipe.loopStep stW eW).st.buf.length = BUFSZ ∧
    (Datapipe.loopStep stW eW).st.buf.length = BUFSZ := by
  have h := c9_buffer_bounds stW eW (by simp [stW]) (by decide)
  exact h.1

/-- C10: the two source variants implement the same relay behaviour.  Every
loop iteration computes the same next state, the same read source, the same
sent bytes and the same close flag, returning together (with -1 versus 30).
With a successful fork the two setups reach the loop on exactly the same
oracles with the same socket states and diagnostics, and fail together on
the same oracles (revdatapipe.c always with status -1, datapipe.c with its
own codes); the only other difference is datapipe.c's fork, whose failure
exits 20 and whose parent branch exits 0. -/
theorem c10_variants_equivalent :
    (∀ st e,
      (Revdatapipe.loopStep st e).st = (Datapipe.loopStep st e).st ∧
      (Revdatapipe.loopStep st e).recvSrc = (Datapipe.loopStep st e).recvSrc ∧
      (Revdatapipe.loopStep st e).sent = (Datapipe.loopStep st e).sent ∧
      (Revdatapipe.loopStep st e).closeneeded = (Datapipe.loopStep st e).closeneeded ∧
      ((Revdatapipe.loopStep st e).ret = none ↔ (Datapipe.loopStep st e).ret = none) ∧
      ((Revdatapipe.loopStep st e).ret ≠ none →
        (Revdatapipe.loopStep st e).ret = some (-1) ∧
        (Datapipe.loopStep st e).ret = some 30)) ∧
    (∀ env, env.forkRet = 0 →
      (∀ o0 o1 log, Revdatapipe.setup env = .toLoop o0 o1 log ↔
        Datapipe.setup env = .toLoop o0 o1 log) ∧
      (∀ log, (∃ c, Revdatapipe.setup env = .exit c log) ↔
        (∃ c, Datapipe.setup env = .exit c log))) ∧
    (∀ env c log, Revdatapipe.setup env = .exit c log → c = -1) ∧
    (∀ env o0 o1 log, Revdatapipe.setup env = .toLoop o0 o1 log →
      (env.forkRet = -1 → Datapipe.setup env = .exit 20 (log ++ ["fork"])) ∧
      (0 < env.forkRet → Datapipe.setup env = .exit 0 log)) := by
  refine ⟨loopStepPair, fun env hf => setupPair env hf,
    fun env c log h => Revdatapipe.setup_exit_code env c log h, ?_⟩
  intro env o0 o1 log h
  obtain ⟨ha, hp, hi, hs, -, -⟩ := Revdatapipe.setup_toLoop_inv env o0 o1 log h
  have hcanon := Revdatapipe.setup_ok env ha hp hi hs
  rw [h] at hcanon
  simp only [SetupResult.toLoop.injEq] at hcanon
  obtain ⟨-, -, hlog⟩ := hcanon
  have hfork := Datapipe.setup_fork env ha hp hi hs
  constructor
  · intro hf
    rw [hlog]
    exact hfork.1 hf
  · intro hf
    rw [hlog]
    exact hfork.2 hf

/-- Witness for C10: a concrete iteration transfers the same bytes in both
variants, and a concrete successful setup reaches the loop in one variant
exactly as in the other. -/
theorem c10_variants_equivalent_witness :
    (Revdatapipe.loopStep stW eW).sent = (Datapipe.loopStep stW eW).sent ∧
    (Revdatapipe.setup envW = .toLoop true true [] ↔
      Datapipe.setup envW = .toLoop true true []) := by
  have h := c10_variants_equivalent
  exact ⟨(h.1 stW eW).2.2.1, (h.2.1 envW rfl).1 true true []⟩
